import Mathlib

/-!
# Verification of the Agent OS upgrade-workflow models

Shallow embedding of the `mcp_server.models` package and of the Phase
Checkpoint State Machine it specifies: evidence collection, checkpoint
evaluation, workflow transitions, backup/restore, and report finalization.
The only code present in the repository snapshot is the package manifest
`mcp_server/models/__init__.py` (imports and `__all__`); the behavioral
components are therefore modelled from the specification, as marked on
each definition.
-/

deriving instance DecidableEq for Except

namespace AgentOS

/-- Checkpoint status enumeration, from the spec data model:
{pending, in_progress, passed, failed, skipped, rolled_back}. -/
inductive CheckpointStatus where
  | pending
  | in_progress
  | passed
  | failed
  | skipped
  | rolled_back
deriving DecidableEq, Repr

/-- A field value carried by observations/evidence. -/
inductive Value where
  | num (n : Int)
  | bool (b : Bool)
  | str (s : String)
deriving DecidableEq, Repr

/-- A required outcome for a named predicate in checkpoint criteria
(threshold, boolean, set-membership), from the spec. -/
inductive Requirement where
  | threshold (lo : Int)
  | boolean (b : Bool)
  | memberOf (s : List Value)
deriving DecidableEq, Repr

/-- Modelled from the spec: CheckpointCriteria is a mapping from named
predicate to required outcome, owned by PhaseMetadata. -/
structure CheckpointCriteria where
  preds : List (String × Requirement)
deriving DecidableEq, Repr

/-- Modelled from the spec: raw observations supplied by the caller for a
phase, to be validated structurally by an Evidence Collector. -/
structure Observations where
  phase : Nat
  fields : List (String × Value)
deriving DecidableEq, Repr

/-- Modelled from the spec: an immutable, time-stamped, phase-tagged
evidence record (PhaseNEvidence) produced by a collector. -/
structure Evidence where
  phase : Nat
  fields : List (String × Value)
  timestamp : Nat
deriving DecidableEq, Repr

/-- Modelled from the spec: one externally executed action's record
{command, exit indicator, duration, timestamp}. -/
structure CommandExecution where
  command : String
  exitCode : Int
  duration : Nat
  timestamp : Nat
deriving DecidableEq, Repr

/-- Modelled from the spec: a named output/byproduct of a phase. -/
structure PhaseArtifact where
  name : String
  payload : String
deriving DecidableEq, Repr

/-- Modelled from the spec: per-phase read-only configuration — name,
retry budget, timeout, optional-phase flag, required observation shape,
checkpoint criteria, and backup-boundary flag. -/
structure PhaseMetadata where
  name : String
  retryBudget : Nat
  timeout : Nat
  optional : Bool
  requiredFields : List String
  criteria : CheckpointCriteria
  backupBoundary : Bool
deriving DecidableEq, Repr

instance : Inhabited PhaseMetadata :=
  ⟨{ name := "", retryBudget := 0, timeout := 0, optional := false,
     requiredFields := [], criteria := ⟨[]⟩, backupBoundary := false }⟩

/-- Modelled from the spec: workflow-level read-only configuration holding
the metadata of the six phases. -/
structure WorkflowConfig where
  phases : List PhaseMetadata
deriving Repr

/-- The metadata of phase `p` under configuration `cfg`. -/
def metaAt (cfg : WorkflowConfig) (p : Nat) : PhaseMetadata :=
  cfg.phases.getD p default

/-- Modelled from the spec: WorkflowState = {session_id, current_phase,
status, history of CommandExecution, artifacts per phase}, plus the
explicit bounded retry counter for the current phase. -/
structure WorkflowState where
  sessionId : String
  currentPhase : Nat
  status : CheckpointStatus
  history : List CommandExecution
  artifacts : List (Nat × List PhaseArtifact)
  attempts : Nat
deriving DecidableEq, Repr

/-- All possible errors of the core, following the spec taxonomy:
input errors, state errors, backup integrity failures, finalization
errors. -/
inductive UpgradeError where
  | evidenceShapeError
  | criteriaUnresolvedError (name : String)
  | invalidTransitionError
  | notOptionalError
  | integrityMismatchError (path : String)
  | sessionNotTerminalError
  | alreadyFinalizedError
deriving DecidableEq, Repr

/-- Look up a named field in an evidence record. -/
def lookupField (ev : Evidence) (name : String) : Option Value :=
  (ev.fields.find? (fun pc => pc.1 == name)).map (fun pc => pc.2)

/-- Modelled from the spec: whether an evidence value meets a required
outcome; `none` when the requirement is not satisfiable from the shape
of the value (type mismatch), which is an unresolved criterion. -/
def valueMeets : Value → Requirement → Option Bool
  | .num n, .threshold lo => some (decide (lo ≤ n))
  | .bool b, .boolean r => some (b == r)
  | v, .memberOf s => some (s.contains v)
  | _, _ => none

/-- Modelled from the spec: resolve and test each named predicate in
order; a predicate whose field is missing or not satisfiable fails with
`CriteriaUnresolvedError`; otherwise the conjunction of outcomes. -/
def evalPreds : List (String × Requirement) → Evidence → Except UpgradeError Bool
  | [], _ => .ok true
  | (name, req) :: rest, ev =>
    match lookupField ev name with
    | none => .error (.criteriaUnresolvedError name)
    | some v =>
      match valueMeets v req with
      | none => .error (.criteriaUnresolvedError name)
      | some b =>
        match evalPreds rest ev with
        | .error e => .error e
        | .ok r => .ok (b && r)

/-- Modelled from the spec (Checkpoint Engine):
`evaluate(criteria, evidence) -> CheckpointStatus`; all predicates pass →
`passed`; any resolved-but-untrue predicate → `failed`; empty criteria →
`passed`. -/
def evaluate (c : CheckpointCriteria) (ev : Evidence) :
    Except UpgradeError CheckpointStatus :=
  match evalPreds c.preds ev with
  | .error e => .error e
  | .ok b => .ok (if b then .passed else .failed)

/-- Modelled from the spec (Evidence Collectors):
`collect(phase, observations) -> PhaseNEvidence`, validating the
observations structurally against the phase's required fields and
stamping the time; wrong shape fails with `EvidenceShapeError`. -/
def collect (pm : PhaseMetadata) (obs : Observations) (now : Nat) :
    Except UpgradeError Evidence :=
  if pm.requiredFields.all
      (fun n => (obs.fields.find? (fun pc => pc.1 == n)).isSome) then
    .ok { phase := obs.phase, fields := obs.fields, timestamp := now }
  else
    .error .evidenceShapeError

/-- Content hash used by the Backup Manager (content-addressed record). -/
def strHash (s : String) : Nat :=
  s.data.foldl (fun a c => a * 31 + c.toNat + 1) 7

/-- Modelled from the spec: one BackupManifest entry
{path, content hash, size, capture timestamp}; the captured content
itself is also stored, since `restore` re-applies captured content. -/
structure ManifestEntry where
  path : String
  contentHash : Nat
  size : Nat
  capturedAt : Nat
  content : String
deriving DecidableEq, Repr

/-- Modelled from the spec: BackupManifest = {entries, created_at,
integrity digest over entries}. -/
structure BackupManifest where
  entries : List ManifestEntry
  createdAt : Nat
  digest : Nat
deriving DecidableEq, Repr

/-- The target project state monitored by the Backup Manager: an
association of paths to contents. -/
def TargetFs : Type := List (String × String)

/-- Modelled from the spec (Backup Manager): `snapshot(targets)` captures
content hashes and byte sizes for the given target set. -/
def snapshot (targets : List (String × String)) (now : Nat) : BackupManifest :=
  let entries := targets.map (fun pc =>
    { path := pc.1, contentHash := strHash pc.2, size := pc.2.length,
      capturedAt := now, content := pc.2 : ManifestEntry })
  { entries := entries, createdAt := now,
    digest := entries.foldl (fun a e => a * 1009 + e.contentHash) 3 }

/-- An entry verifies when its stored hash is reproduced from its stored
content. -/
def verifyEntry (e : ManifestEntry) : Bool :=
  strHash e.content == e.contentHash

/-- Replace the content stored at `p` in the target set. -/
def updateFs (fs : List (String × String)) (p : String) (c : String) :
    List (String × String) :=
  fs.map (fun q => if q.1 = p then (p, c) else q)

/-- Modelled from the spec (Backup Manager): `restore(manifest)` fails
fatally with `IntegrityMismatchError` if a captured hash cannot be
reproduced from stored content, applying nothing; otherwise it re-applies
every captured content to the target set. -/
def restore (fs : List (String × String)) (m : BackupManifest) :
    Except UpgradeError (List (String × String)) :=
  match m.entries.find? (fun e => !verifyEntry e) with
  | some e => .error (.integrityMismatchError e.path)
  | none => .ok (m.entries.foldl (fun acc e => updateFs acc e.path e.content) fs)

/-- Modelled from the spec: the terminal, write-once summary
{final status, phases completed, evidence digest per phase,
rollback occurred, duration}. -/
structure UpgradeReport where
  finalStatus : CheckpointStatus
  phasesCompleted : Nat
  evidenceDigest : List (Nat × Nat)
  rollbackOccurred : Bool
  duration : Nat
deriving DecidableEq, Repr

/-- Modelled from the spec: the aggregate root binding WorkflowState, all
evidence records, the BackupManifest, the monitored target state, and the
final UpgradeReport once generated. -/
structure UpgradeWorkflowSession where
  state : WorkflowState
  evidenceRecords : List Evidence
  manifest : BackupManifest
  targetFiles : List (String × String)
  rolledBack : Bool
  report : Option UpgradeReport
deriving DecidableEq, Repr

/-- Terminal statuses per the spec: `failed` (no retry left),
`rolled_back`, and `passed` at phase 5 (sole success terminal). -/
def sessionTerminal (s : UpgradeWorkflowSession) : Bool :=
  s.state.status == .failed || s.state.status == .rolled_back ||
    (s.state.status == .passed && s.state.currentPhase == 5)

/-- A transition request made of a session, per the spec transition
table: submit evidence for the current phase (with the record of the
external command that produced it), skip an optional phase, or request a
rollback. -/
inductive Action where
  | submit (exec : CommandExecution) (obs : Observations)
  | skip
  | rollback

/-- Modelled from the spec: the Checkpoint Engine invocation as seen by
the State Machine; evaluation is deterministic and side-effect-free, so
it returns the verdict together with the untouched session. -/
def evaluateChk (cfg : WorkflowConfig) (s : UpgradeWorkflowSession)
    (ev : Evidence) : Except UpgradeError CheckpointStatus × UpgradeWorkflowSession :=
  (evaluate (metaAt cfg s.state.currentPhase).criteria ev, s)

/-- Modelled from the spec transition table: apply a checkpoint verdict.
`passed` advances the phase (capped at 5; the next phase starts pending,
phase 5 passed is the success terminal); `failed` with retry budget
remaining keeps the phase `in_progress` (the failed attempt's evidence is
retained); `failed` with the budget exhausted sets status `failed`. -/
def applyVerdict (cfg : WorkflowConfig) (s : UpgradeWorkflowSession)
    (exec : CommandExecution) (ev : Evidence) (v : CheckpointStatus) :
    Except UpgradeError UpgradeWorkflowSession :=
  let st := s.state
  let recorded : UpgradeWorkflowSession :=
    { s with
      evidenceRecords := s.evidenceRecords ++ [ev],
      state := { st with history := st.history ++ [exec] } }
  match v with
  | .passed =>
    .ok { recorded with state :=
      { recorded.state with
        status := if st.currentPhase < 5 then .pending else .passed,
        currentPhase := if st.currentPhase < 5 then st.currentPhase + 1 else st.currentPhase,
        attempts := 0 } }
  | .failed =>
    if st.attempts < (metaAt cfg st.currentPhase).retryBudget then
      .ok { recorded with state :=
        { recorded.state with status := .in_progress, attempts := st.attempts + 1 } }
    else
      .ok { recorded with state := { recorded.state with status := .failed } }
  | _ => .error .invalidTransitionError

/-- Modelled from the spec (Workflow State Machine): the single serialized
transition operation of a session. Input validation happens first and
surfaces input errors with no state mutation; evidence for a non-current
phase and transitions out of a terminal state are state errors; `skip` is
allowed only for optional phases; `rollback` restores the manifest,
resets the phase to 0 and marks the state `rolled_back`. -/
def step (cfg : WorkflowConfig) (now : Nat) (s : UpgradeWorkflowSession)
    (a : Action) : Except UpgradeError UpgradeWorkflowSession :=
  match a with
  | .submit exec obs =>
    match collect (metaAt cfg obs.phase) obs now with
    | .error e => .error e
    | .ok ev =>
      if obs.phase == s.state.currentPhase then
        if sessionTerminal s then .error .invalidTransitionError
        else
          match evaluateChk cfg s ev with
          | (.error e, _) => .error e
          | (.ok v, s0) => applyVerdict cfg s0 exec ev v
      else .error .invalidTransitionError
  | .skip =>
    if sessionTerminal s then .error .invalidTransitionError
    else if (metaAt cfg s.state.currentPhase).optional then
      .ok { s with state :=
        { s.state with
          status := .skipped,
          currentPhase := s.state.currentPhase + 1,
          attempts := 0 } }
    else .error .notOptionalError
  | .rollback =>
    if s.state.status == .in_progress || s.state.status == .failed then
      match restore s.targetFiles s.manifest with
      | .error e => .error e
      | .ok fs2 =>
        .ok { s with
          targetFiles := fs2,
          rolledBack := true,
          state := { s.state with
                     status := .rolled_back,
                     currentPhase := 0,
                     attempts := 0 } }
    else .error .invalidTransitionError

/-- The session resulting from a transition request: on any error the
request is rejected and the session is unchanged (atomicity). -/
def runStep (cfg : WorkflowConfig) (now : Nat) (s : UpgradeWorkflowSession)
    (a : Action) : UpgradeWorkflowSession :=
  match step cfg now s a with
  | .ok s2 => s2
  | .error _ => s

/-- Digest of an evidence record for the report. -/
def evidenceHash (ev : Evidence) : Nat :=
  ev.fields.foldl (fun a pc => a * 131 + strHash pc.1 +
    (match pc.2 with
     | .num n => n.natAbs
     | .bool b => if b then 1 else 0
     | .str s => strHash s)) ev.phase

/-- Modelled from the spec (Report Generator): a pure projection of the
session history into an UpgradeReport. -/
def mkReport (s : UpgradeWorkflowSession) : UpgradeReport :=
  { finalStatus := s.state.status,
    phasesCompleted := s.state.currentPhase,
    evidenceDigest := s.evidenceRecords.map (fun ev => (ev.phase, evidenceHash ev)),
    rollbackOccurred := s.rolledBack,
    duration := (s.state.history.map (fun e => e.duration)).foldl (· + ·) 0 }

/-- Modelled from the spec (Report Generator): `finalize(session)`,
callable exactly once per session, only after a terminal status; a
non-terminal session fails with `SessionNotTerminalError`, an already
finalized session with the already-finalized error. -/
def finalize (s : UpgradeWorkflowSession) :
    Except UpgradeError (UpgradeReport × UpgradeWorkflowSession) :=
  if s.report.isSome then .error .alreadyFinalizedError
  else if sessionTerminal s then
    .ok (mkReport s, { s with report := some (mkReport s) })
  else .error .sessionNotTerminalError

/-! ## The package manifest `mcp_server/models/__init__.py`

These lists transcribe the actual source file: the names bound by each of
the four import statements, and the `__all__` export list. -/

/-- Names bound by `from .config import (...)` in
`mcp_server/models/__init__.py`. -/
def configImports : List String :=
  ["RAGConfig", "MCPConfig", "ServerConfig"]

/-- Names bound by `from .workflow import (...)`. -/
def workflowImports : List String :=
  ["CheckpointStatus", "CommandExecution", "PhaseArtifact", "WorkflowState",
   "CheckpointCriteria", "PhaseMetadata", "WorkflowMetadata", "WorkflowConfig"]

/-- Names bound by `from .rag import (...)`. -/
def ragImports : List String :=
  ["ChunkMetadata", "DocumentChunk", "SearchResult", "QueryMetrics"]

/-- Names bound by `from .upgrade_models import (...)`. -/
def upgradeModelsImports : List String :=
  ["Phase0Evidence", "Phase1Evidence", "Phase2Evidence", "Phase3Evidence",
   "Phase4Evidence", "Phase5Evidence", "BackupManifest", "UpgradeReport",
   "UpgradeWorkflowSession"]

/-- All names bound by the module's import statements, in order. -/
def importedNames : List String :=
  configImports ++ workflowImports ++ ragImports ++ upgradeModelsImports

/-- The `__all__` list of `mcp_server/models/__init__.py`, in order. -/
def allExports : List String :=
  ["RAGConfig", "MCPConfig", "ServerConfig",
   "CheckpointStatus", "CommandExecution", "PhaseArtifact", "WorkflowState",
   "CheckpointCriteria", "PhaseMetadata", "WorkflowMetadata", "WorkflowConfig",
   "ChunkMetadata", "DocumentChunk", "SearchResult", "QueryMetrics",
   "Phase0Evidence", "Phase1Evidence", "Phase2Evidence", "Phase3Evidence",
   "Phase4Evidence", "Phase5Evidence", "BackupManifest", "UpgradeReport",
   "UpgradeWorkflowSession"]

/-! ## Concrete exemplar configuration and sessions -/

/-- A standard non-optional phase: one retry, one threshold criterion on
the `tests` field. -/
def pmStd : PhaseMetadata :=
  { name := "std", retryBudget := 1, timeout := 60, optional := false,
    requiredFields := ["tests"], criteria := ⟨[("tests", .threshold 1)]⟩,
    backupBoundary := false }

/-- An optional phase, otherwise like `pmStd`. -/
def pmOpt : PhaseMetadata := { pmStd with name := "opt", optional := true }

/-- A six-phase exemplar workflow configuration (phase 1 is optional). -/
def cfgEx : WorkflowConfig :=
  { phases := [pmStd, pmOpt, pmStd, pmStd, pmStd, pmStd] }

/-- An exemplar monitored target set. -/
def fsEx : List (String × String) := [("a.txt", "alpha")]

/-- A freshly created session: phase 0, status pending, snapshot taken at
session start. -/
def sessionEx : UpgradeWorkflowSession :=
  { state := { sessionId := "s-1", currentPhase := 0, status := .pending,
               history := [], artifacts := [], attempts := 0 },
    evidenceRecords := [], manifest := snapshot fsEx 0, targetFiles := fsEx,
    rolledBack := false, report := none }

/-- An exemplar external command record. -/
def execEx : CommandExecution :=
  { command := "run tests", exitCode := 0, duration := 2, timestamp := 5 }

/-- Observations satisfying phase 0's criterion. -/
def obsPass : Observations := { phase := 0, fields := [("tests", .num 3)] }

/-- Observations with the right shape whose criterion check fails. -/
def obsFail : Observations := { phase := 0, fields := [("tests", .num 0)] }

/-- Observations of the wrong shape for phase 0 (required field absent). -/
def obsBad : Observations := { phase := 0, fields := [] }

/-- The evidence record collected from `obsFail` at time 5. -/
def evFail : Evidence := { phase := 0, fields := [("tests", .num 0)], timestamp := 5 }

/-- A manifest whose stored hash does not match its stored content. -/
def badManifest : BackupManifest :=
  { entries := [{ path := "a.txt", contentHash := 1, size := 5,
                  capturedAt := 0, content := "alpha" }],
    createdAt := 0, digest := 0 }

/-- A failed session at phase 3 holding the corrupted manifest. -/
def corruptSession : UpgradeWorkflowSession :=
  { sessionEx with
    manifest := badManifest,
    state := { sessionEx.state with status := .failed, currentPhase := 3 } }

/-- A session that reached the `failed` terminal status. -/
def sTermEx : UpgradeWorkflowSession :=
  { sessionEx with state := { sessionEx.state with status := .failed } }

/-- `sTermEx` after a successful finalization. -/
def finalizedEx : UpgradeWorkflowSession :=
  { sTermEx with report := some (mkReport sTermEx) }

/-- `sessionEx` moved to the optional phase 1. -/
def skipSess : UpgradeWorkflowSession :=
  { sessionEx with state := { sessionEx.state with currentPhase := 1 } }

/-- Observations of the right shape whose `tests` field cannot satisfy a
threshold requirement (a string where a number is needed): the criterion
is unresolvable from the evidence's fields. -/
def obsUnres : Observations := { phase := 0, fields := [("tests", .str "x")] }

/-- The evidence record collected from `obsUnres` at time 5. -/
def evUnres : Evidence :=
  { phase := 0, fields := [("tests", .str "x")], timestamp := 5 }

/-- The session resulting from submitting `obsPass` to `sessionEx`:
phase 0 passed, the phase index advanced to 1. -/
def afterPass : UpgradeWorkflowSession :=
  { state := { sessionId := "s-1", currentPhase := 1, status := .pending,
               history := [execEx], artifacts := [], attempts := 0 },
    evidenceRecords := [{ phase := 0, fields := [("tests", .num 3)], timestamp := 5 }],
    manifest := snapshot fsEx 0, targetFiles := fsEx,
    rolledBack := false, report := none }

/-! ## Shared lemmas -/

/-- A rejected transition request leaves the session unchanged. -/
theorem runStep_of_error (cfg : WorkflowConfig) (now : Nat)
    (s : UpgradeWorkflowSession) (a : Action) (e : UpgradeError)
    (h : step cfg now s a = .error e) : runStep cfg now s a = s := by
  simp [runStep, h]

/-- Updating a path that is not present leaves the target set unchanged. -/
theorem updateFs_of_not_mem (fs : List (String × String)) (p c : String)
    (hp : p ∉ fs.map Prod.fst) : updateFs fs p c = fs := by
  induction fs with
  | nil => rfl
  | cons q rest ih =>
    have h1 : ¬ q.1 = p := by
      intro h
      exact hp (by simp [List.map_cons, h])
    have h2 : p ∉ rest.map Prod.fst := by
      intro h
      exact hp (by simp [List.map_cons, h])
    simp only [updateFs, List.map_cons, if_neg h1]
    have htail : updateFs rest p c = rest := ih h2
    simp only [updateFs] at htail
    rw [htail]

/-- Re-applying the content already stored at a path is the identity when
paths are unique. -/
theorem updateFs_self (fs : List (String × String)) (p c : String)
    (hnd : (fs.map Prod.fst).Nodup) (hmem : (p, c) ∈ fs) :
    updateFs fs p c = fs := by
  induction fs with
  | nil => cases hmem
  | cons q rest ih =>
    rw [List.map_cons, List.nodup_cons] at hnd
    cases hmem with
    | head =>
      simp only [updateFs, List.map_cons, if_pos rfl]
      have htail : updateFs rest p c = rest := updateFs_of_not_mem rest p c hnd.1
      simp only [updateFs] at htail
      rw [htail]
      simp
    | tail _ hm =>
      have hp : p ∈ rest.map Prod.fst :=
        List.mem_map.mpr ⟨(p, c), hm, rfl⟩
      have h1 : ¬ q.1 = p := fun h => hnd.1 (h ▸ hp)
      simp only [updateFs, List.map_cons, if_neg h1]
      have htail : updateFs rest p c = rest := ih hnd.2 hm
      simp only [updateFs] at htail
      rw [htail]

/-- Folding re-applications of already-present contents over a
duplicate-free target set is the identity. -/
theorem foldl_update_id (fs : List (String × String))
    (hnd : (fs.map Prod.fst).Nodup) :
    ∀ l : List (String × String), (∀ x ∈ l, x ∈ fs) →
      l.foldl (fun acc pc => updateFs acc pc.1 pc.2) fs = fs := by
  intro l
  induction l with
  | nil => intro _; rfl
  | cons x rest ih =>
    intro hsub
    obtain ⟨a, b⟩ := x
    have hx : (a, b) ∈ fs := hsub (a, b) (List.mem_cons_self _ _)
    rw [List.foldl_cons]
    rw [updateFs_self fs a b hnd hx]
    exact ih (fun y hy => hsub y (List.mem_cons_of_mem _ hy))

/-- Every entry captured by `snapshot` verifies: its stored hash is
reproduced from its stored content. -/
theorem snapshot_find_none (targets : List (String × String)) (now : Nat) :
    (snapshot targets now).entries.find? (fun e => !verifyEntry e) = none := by
  rw [List.find?_eq_none]
  intro e he
  simp only [snapshot, List.mem_map] at he
  obtain ⟨pc, _, rfl⟩ := he
  simp [verifyEntry]

/-! ## Claim theorems -/

/-- Applying a checkpoint verdict never decreases the phase index. -/
theorem applyVerdict_phase (cfg : WorkflowConfig) (s : UpgradeWorkflowSession)
    (exec : CommandExecution) (ev : Evidence) (v : CheckpointStatus)
    (s2 : UpgradeWorkflowSession) (h : applyVerdict cfg s exec ev v = .ok s2) :
    s.state.currentPhase ≤ s2.state.currentPhase := by
  cases v with
  | passed =>
    simp only [applyVerdict, Except.ok.injEq] at h
    subst h
    by_cases h5 : s.state.currentPhase < 5 <;> simp [h5]
  | failed =>
    simp only [applyVerdict] at h
    split at h <;> (rw [Except.ok.injEq] at h; subst h; simp)
  | pending => simp [applyVerdict] at h
  | in_progress => simp [applyVerdict] at h
  | skipped => simp [applyVerdict] at h
  | rolled_back => simp [applyVerdict] at h

/-- C1: across every applied transition, `current_phase` is monotonically
non-decreasing, except that a rollback transition resets it to 0 and
marks the state `rolled_back`. -/
theorem phase_monotone_except_rollback (cfg : WorkflowConfig) (now : Nat)
    (s : UpgradeWorkflowSession) (a : Action) (s2 : UpgradeWorkflowSession)
    (h : step cfg now s a = .ok s2) :
    s.state.currentPhase ≤ s2.state.currentPhase ∨
    (a = .rollback ∧ s2.state.currentPhase = 0 ∧
      s2.state.status = .rolled_back) := by
  cases a with
  | submit exec obs =>
    left
    simp only [step] at h
    split at h
    · exact absurd h (by simp)
    · split at h
      · split at h
        · exact absurd h (by simp)
        · split at h
          · exact absurd h (by simp)
          · rename_i v s0 heq
            have hs0 : s = s0 := congrArg Prod.snd heq
            subst hs0
            exact applyVerdict_phase cfg s exec _ v s2 h
      · exact absurd h (by simp)
  | skip =>
    left
    simp only [step] at h
    split at h
    · simp at h
    · split at h
      · rw [Except.ok.injEq] at h
        subst h
        simp
      · simp at h
  | rollback =>
    right
    simp only [step] at h
    split at h
    · cases hr : restore s.targetFiles s.manifest with
      | error e => rw [hr] at h; simp at h
      | ok fs2 =>
        rw [hr, Except.ok.injEq] at h
        subst h
        exact ⟨rfl, rfl, rfl⟩
    · simp at h

/-- Witness for C1: a concrete successful transition (phase 0 evidence
passing its criteria) advances the phase from 0 to 1. -/
theorem phase_monotone_except_rollback_witness :
    sessionEx.state.currentPhase ≤ afterPass.state.currentPhase ∨
    ((.submit execEx obsPass : Action) = .rollback ∧
      afterPass.state.currentPhase = 0 ∧
      afterPass.state.status = .rolled_back) :=
  phase_monotone_except_rollback cfgEx 5 sessionEx (.submit execEx obsPass)
    afterPass (by decide)

/-- C2: on a `failed` checkpoint verdict, if the retry budget from the
phase's PhaseMetadata is not exhausted the session stays at the same
phase with status `in_progress` and the failed attempt's evidence is
retained (appended to the records, nothing discarded); if the budget is
exhausted the status becomes `failed`. -/
theorem failed_verdict_retry_or_exhaust (cfg : WorkflowConfig) (now : Nat)
    (s : UpgradeWorkflowSession) (exec : CommandExecution)
    (obs : Observations) (ev : Evidence)
    (hc : collect (metaAt cfg obs.phase) obs now = .ok ev)
    (hph : (obs.phase == s.state.currentPhase) = true)
    (hterm : sessionTerminal s = false)
    (hev : evaluate (metaAt cfg s.state.currentPhase).criteria ev = .ok .failed) :
    (s.state.attempts < (metaAt cfg s.state.currentPhase).retryBudget →
      step cfg now s (.submit exec obs) = .ok
        { s with
          evidenceRecords := s.evidenceRecords ++ [ev],
          state := { s.state with
            history := s.state.history ++ [exec],
            status := .in_progress,
            attempts := s.state.attempts + 1 } }) ∧
    (¬ s.state.attempts < (metaAt cfg s.state.currentPhase).retryBudget →
      step cfg now s (.submit exec obs) = .ok
        { s with
          evidenceRecords := s.evidenceRecords ++ [ev],
          state := { s.state with
            history := s.state.history ++ [exec],
            status := .failed } }) := by
  have hstep : step cfg now s (.submit exec obs) =
      applyVerdict cfg s exec ev .failed := by
    simp [step, hc, hph, hterm, evaluateChk, hev]
  constructor
  · intro hb
    rw [hstep]
    simp [applyVerdict, hb]
  · intro hb
    rw [hstep]
    simp [applyVerdict, hb]

/-- Witness for C2: phase 0 of the exemplar configuration has retry
budget 1; the first failing submission keeps the session at phase 0 with
status `in_progress`, the failed evidence appended. -/
theorem failed_verdict_retry_or_exhaust_witness :
    step cfgEx 5 sessionEx (.submit execEx obsFail) = .ok
      { sessionEx with
        evidenceRecords := sessionEx.evidenceRecords ++ [evFail],
        state := { sessionEx.state with
          history := sessionEx.state.history ++ [execEx],
          status := .in_progress,
          attempts := sessionEx.state.attempts + 1 } } :=
  (failed_verdict_retry_or_exhaust cfgEx 5 sessionEx execEx obsFail evFail
    (by decide) (by decide) (by decide) (by decide)).1 (by decide)

/-- C8: input errors are surfaced to the caller and leave the session
completely unchanged: observations of the wrong shape surface
`EvidenceShapeError`, and a criteria predicate that is not satisfiable
from the evidence's fields surfaces `CriteriaUnresolvedError`; in both
cases no state mutation occurs. -/
theorem input_errors_leave_state_unchanged (cfg : WorkflowConfig) (now : Nat)
    (s : UpgradeWorkflowSession) (exec : CommandExecution)
    (obs : Observations) :
    (collect (metaAt cfg obs.phase) obs now = .error .evidenceShapeError →
      step cfg now s (.submit exec obs) = .error .evidenceShapeError ∧
      runStep cfg now s (.submit exec obs) = s) ∧
    (∀ ev n, collect (metaAt cfg obs.phase) obs now = .ok ev →
      (obs.phase == s.state.currentPhase) = true →
      sessionTerminal s = false →
      evaluate (metaAt cfg s.state.currentPhase).criteria ev =
        .error (.criteriaUnresolvedError n) →
      step cfg now s (.submit exec obs) = .error (.criteriaUnresolvedError n) ∧
      runStep cfg now s (.submit exec obs) = s) := by
  constructor
  · intro hc
    have hstep : step cfg now s (.submit exec obs) = .error .evidenceShapeError := by
      simp [step, hc]
    exact ⟨hstep, runStep_of_error cfg now s _ _ hstep⟩
  · intro ev n hc hph hterm hev
    have hstep : step cfg now s (.submit exec obs) =
        .error (.criteriaUnresolvedError n) := by
      simp [step, hc, hph, hterm, evaluateChk, hev]
    exact ⟨hstep, runStep_of_error cfg now s _ _ hstep⟩

/-- Witness for C8: concrete observations missing the required `tests`
field surface `EvidenceShapeError`, and observations carrying a string
where the threshold criterion needs a number surface
`CriteriaUnresolvedError`; in both cases the session is unchanged. -/
theorem input_errors_leave_state_unchanged_witness :
    (step cfgEx 5 sessionEx (.submit execEx obsBad) =
       .error .evidenceShapeError ∧
     runStep cfgEx 5 sessionEx (.submit execEx obsBad) = sessionEx) ∧
    (step cfgEx 5 sessionEx (.submit execEx obsUnres) =
       .error (.criteriaUnresolvedError "tests") ∧
     runStep cfgEx 5 sessionEx (.submit execEx obsUnres) = sessionEx) :=
  ⟨(input_errors_leave_state_unchanged cfgEx 5 sessionEx execEx obsBad).1
     (by decide),
   (input_errors_leave_state_unchanged cfgEx 5 sessionEx execEx obsUnres).2
     evUnres "tests" (by decide) (by decide) (by decide) (by decide)⟩

/-- C5: for every evidence value, `evaluate` applied to an empty
CheckpointCriteria returns the status `passed` (vacuous truth). -/
theorem evaluate_empty_criteria_passed (ev : Evidence) :
    evaluate { preds := [] } ev = .ok .passed := rfl

/-- C6: checkpoint evaluation is deterministic and side-effect-free: two
invocations on the identical (criteria, evidence) pair — here two
sessions at the same phase, hence with the same criteria — return the
same CheckpointStatus, and neither invocation mutates its session. -/
theorem evaluate_deterministic_pure (cfg : WorkflowConfig)
    (s t : UpgradeWorkflowSession) (ev : Evidence)
    (h : s.state.currentPhase = t.state.currentPhase) :
    (evaluateChk cfg s ev).1 = (evaluateChk cfg t ev).1 ∧
    (evaluateChk cfg s ev).2 = s ∧ (evaluateChk cfg t ev).2 = t := by
  refine ⟨?_, rfl, rfl⟩
  simp [evaluateChk, h]

/-- Witness for C6: two distinct concrete sessions at phase 0 receive the
same verdict on the same evidence, and both are left unchanged. -/
theorem evaluate_deterministic_pure_witness :
    (evaluateChk cfgEx sessionEx evFail).1 = (evaluateChk cfgEx sTermEx evFail).1 ∧
    (evaluateChk cfgEx sessionEx evFail).2 = sessionEx ∧
    (evaluateChk cfgEx sTermEx evFail).2 = sTermEx :=
  evaluate_deterministic_pure cfgEx sessionEx sTermEx evFail rfl

/-- C3: when a manifest entry's stored hash cannot be reproduced from its
stored content, `restore` raises `IntegrityMismatchError`, the rollback
request is rejected with that error (the model's rollback invokes
`restore` exactly once, with no retry), and the session — its status and
its monitored target state included — is left completely unchanged, so no
partial restore is applied. -/
theorem restore_integrity_mismatch_atomic (cfg : WorkflowConfig) (now : Nat)
    (s : UpgradeWorkflowSession) (e : ManifestEntry)
    (hmem : e ∈ s.manifest.entries) (hbad : verifyEntry e = false)
    (hstat : s.state.status = .in_progress ∨ s.state.status = .failed) :
    (∃ p, restore s.targetFiles s.manifest = .error (.integrityMismatchError p)) ∧
    (∃ p, step cfg now s .rollback = .error (.integrityMismatchError p)) ∧
    runStep cfg now s .rollback = s := by
  have hfind : ∃ e2, s.manifest.entries.find? (fun x => !verifyEntry x) = some e2 := by
    cases hf : s.manifest.entries.find? (fun x => !verifyEntry x) with
    | some e2 => exact ⟨e2, rfl⟩
    | none =>
      have := List.find?_eq_none.mp hf e hmem
      simp [hbad] at this
  obtain ⟨e2, hf⟩ := hfind
  have hres : restore s.targetFiles s.manifest = .error (.integrityMismatchError e2.path) := by
    simp [restore, hf]
  have hcond : (s.state.status == .in_progress || s.state.status == .failed) = true := by
    rcases hstat with h | h <;> simp [h]
  have hstep : step cfg now s .rollback = .error (.integrityMismatchError e2.path) := by
    simp [step, hcond, hres]
  exact ⟨⟨e2.path, hres⟩, ⟨e2.path, hstep⟩, runStep_of_error cfg now s .rollback _ hstep⟩

/-- Witness for C3: a failed session at phase 3 holding a manifest whose
hash no longer matches its content: the rollback request surfaces
`IntegrityMismatchError` and the session is unchanged. -/
theorem restore_integrity_mismatch_atomic_witness :
    (∃ p, restore corruptSession.targetFiles corruptSession.manifest =
      .error (.integrityMismatchError p)) ∧
    (∃ p, step cfgEx 9 corruptSession .rollback =
      .error (.integrityMismatchError p)) ∧
    runStep cfgEx 9 corruptSession .rollback = corruptSession :=
  restore_integrity_mismatch_atomic cfgEx 9 corruptSession
    { path := "a.txt", contentHash := 1, size := 5, capturedAt := 0, content := "alpha" }
    (by decide) (by decide) (Or.inr rfl)

/-- C4: the snapshot/restore round-trip law — restoring the snapshot of a
target set that has not been modified in between succeeds, returns
exactly the original target set, and the manifest's captured hashes are
exactly the content hashes of those targets. -/
theorem snapshot_restore_round_trip (targets : List (String × String)) (now : Nat)
    (hnd : (targets.map Prod.fst).Nodup) :
    restore targets (snapshot targets now) = .ok targets ∧
    (snapshot targets now).entries.map (fun e => (e.path, e.contentHash)) =
      targets.map (fun pc => (pc.1, strHash pc.2)) := by
  constructor
  · simp only [restore, snapshot_find_none]
    simp only [snapshot, List.foldl_map]
    rw [foldl_update_id targets hnd targets (fun x hx => hx)]
  · simp [snapshot, List.map_map]

/-- Witness for C4: the round trip on the concrete target set `fsEx`. -/
theorem snapshot_restore_round_trip_witness :
    restore fsEx (snapshot fsEx 0) = .ok fsEx ∧
    (snapshot fsEx 0).entries.map (fun e => (e.path, e.contentHash)) =
      fsEx.map (fun pc => (pc.1, strHash pc.2)) :=
  snapshot_restore_round_trip fsEx 0 (by decide)

/-- C7: `finalize` succeeds at most once per session: on a session whose
status is not terminal it fails with `SessionNotTerminalError`, and a
second call after a successful finalization also fails (with the
already-finalized error). -/
theorem finalize_at_most_once (s : UpgradeWorkflowSession) :
    (s.report = none → sessionTerminal s = false →
      finalize s = .error .sessionNotTerminalError) ∧
    (∀ r s2, finalize s = .ok (r, s2) →
      finalize s2 = .error .alreadyFinalizedError) := by
  constructor
  · intro hrep hterm
    simp [finalize, hrep, hterm]
  · intro r s2 h
    simp only [finalize] at h
    split at h
    · exact absurd h (by simp)
    · split at h
      · rw [Except.ok.injEq, Prod.mk.injEq] at h
        obtain ⟨h1, h2⟩ := h
        subst h2
        simp [finalize]
      · exact absurd h (by simp)

/-- Witness for C7: finalizing a fresh (non-terminal) session fails with
`SessionNotTerminalError`; finalizing an already finalized session fails
with the already-finalized error. -/
theorem finalize_at_most_once_witness :
    finalize sessionEx = .error .sessionNotTerminalError ∧
    finalize finalizedEx = .error .alreadyFinalizedError :=
  ⟨(finalize_at_most_once sessionEx).1 rfl (by decide),
   (finalize_at_most_once sTermEx).2 (mkReport sTermEx) finalizedEx rfl⟩

/-- C9: on a non-terminal session, a skip request succeeds exactly when
the current phase's PhaseMetadata declares it optional; a skip carries no
evidence (the request has none and the session's evidence records are
untouched) and always increments the phase index. -/
theorem skip_requires_optional_and_advances (cfg : WorkflowConfig) (now : Nat)
    (s : UpgradeWorkflowSession) (hterm : sessionTerminal s = false) :
    ((∃ s2, step cfg now s .skip = .ok s2) ↔
      (metaAt cfg s.state.currentPhase).optional = true) ∧
    (∀ s2, step cfg now s .skip = .ok s2 →
      s2.state.status = .skipped ∧
      s2.state.currentPhase = s.state.currentPhase + 1 ∧
      s2.evidenceRecords = s.evidenceRecords) := by
  constructor
  · constructor
    · rintro ⟨s2, h⟩
      by_contra hopt
      simp only [Bool.not_eq_true] at hopt
      simp [step, hterm, hopt] at h
    · intro hopt
      refine ⟨{ s with state := { s.state with
        status := .skipped,
        currentPhase := s.state.currentPhase + 1,
        attempts := 0 } }, ?_⟩
      simp [step, hterm, hopt]
  · intro s2 h
    simp only [step, hterm, Bool.false_eq_true, if_false] at h
    split at h
    · rw [Except.ok.injEq] at h
      subst h
      simp
    · exact absurd h (by simp)

/-- Witness for C9: skipping the optional phase 1 of the exemplar
configuration. -/
theorem skip_requires_optional_and_advances_witness :
    ((∃ s2, step cfgEx 7 skipSess .skip = .ok s2) ↔
      (metaAt cfgEx skipSess.state.currentPhase).optional = true) ∧
    (∀ s2, step cfgEx 7 skipSess .skip = .ok s2 →
      s2.state.status = .skipped ∧
      s2.state.currentPhase = skipSess.state.currentPhase + 1 ∧
      s2.evidenceRecords = skipSess.evidenceRecords) :=
  skip_requires_optional_and_advances cfgEx 7 skipSess (by decide)

/-- C10: the export list of `mcp_server/models/__init__.py` is
consistent: `__all__` has 24 names, each bound by exactly one import
statement of the module, and every imported name appears in `__all__`. -/
theorem models_manifest_exports_consistent :
    allExports.length = 24 ∧
    (∀ n ∈ allExports, importedNames.count n = 1) ∧
    (∀ n ∈ importedNames, n ∈ allExports) := by
  decide

end AgentOS
